import Mathlib

/-!
Verification development for the XaviersSimACTII simulation pacing and
cadence engine.  The JavaScript source is embedded shallowly: ages are
rationals, JS array state becomes Lean lists, file contents become
explicit state values, and every fallible operation returns an
Except/Option value.  Each definition mirrors one function of the
source tree (nodeSrc/simulation.js, nodeSrc/generation/tweet_generator.js,
nodeSrc/generation/digest_generator.js, nodeSrc/generation/
tech_evolution_generator.js and the unnamed source parts).
-/

namespace XaviersSim

/-- JS Number.prototype.toFixed(2) converted back with Number(...), for the
nonnegative magnitudes this program produces: the nearest multiple of 1/100,
ties resolved to the larger value (ECMA-262 picks the larger n on a tie). -/
def round2 (q : ℚ) : ℚ := (⌊100 * q + 1 / 2⌋ : ℚ) / 100

theorem round2_mono {q r : ℚ} (h : q ≤ r) : round2 q ≤ round2 r := by
  unfold round2
  have hfl : ⌊100 * q + 1 / 2⌋ ≤ ⌊100 * r + 1 / 2⌋ := Int.floor_le_floor (by linarith)
  have : ((⌊100 * q + 1 / 2⌋ : ℤ) : ℚ) ≤ ((⌊100 * r + 1 / 2⌋ : ℤ) : ℚ) := by
    exact_mod_cast hfl
  linarith

theorem round2_intCast (n : ℤ) : round2 (n : ℚ) = n := by
  unfold round2
  have h : ⌊(100 : ℚ) * n + 1 / 2⌋ = 100 * n := by
    rw [Int.floor_eq_iff]
    constructor
    · push_cast; linarith
    · push_cast; linarith
  rw [h]; push_cast; ring

/-- TweetGenerator._calculateAge (tweet_generator.js lines 743-749):
returns startAge at zero tweets, otherwise rounds startAge + t/48 to two
decimals with toFixed and caps the rounded value with Math.min at endAge.
tweetsPerYear is the paceConfig constant 48. -/
def tgCalculateAge (startAge endAge : ℚ) (totalTweets : ℕ) : ℚ :=
  if totalTweets = 0 then startAge
  else min (round2 (startAge + totalTweets / 48)) endAge

/-- DigestGenerator._calculateAge (digest_generator.js lines 222-227):
hard-codes tweetsPerYear 48 and startAge 22 and applies no endAge cap. -/
def dgCalculateAge (totalTweets : ℕ) : ℚ := round2 (22 + totalTweets / 48)

/-- The age function exactly as the specification words it: min of the
linear pacing formula and endAge, then rounded to two decimal places. -/
def specAge (startAge endAge postsPerYear : ℚ) (totalPosts : ℕ) : ℚ :=
  round2 (min (startAge + totalPosts / postsPerYear) endAge)

/-- XavierSimulation._checkDailyLimit (simulation.js lines 147-152): the
returned comparison is tweetsToday = totalTweets mod maxTweetsPerDay
strictly below maxTweetsPerDay. -/
def checkDailyLimit (maxTweetsPerDay totalTweets : ℕ) : Bool :=
  totalTweets % maxTweetsPerDay < maxTweetsPerDay

theorem round2_nat (n : ℕ) : round2 (n : ℚ) = n := by
  have h := round2_intCast (n : ℤ)
  push_cast at h
  exact h

theorem round2_72 : round2 72 = 72 := by
  have h := round2_nat 72
  norm_num at h
  exact h

theorem round2_22 : round2 22 = 22 := by
  have h := round2_nat 22
  norm_num at h
  exact h

theorem tgCalculateAge_le_endAge (t : ℕ) : tgCalculateAge 22 72 t ≤ 72 := by
  unfold tgCalculateAge
  by_cases h0 : t = 0
  · simp [h0]; norm_num
  · simp [h0]

theorem tgCalculateAge_mono {t1 t2 : ℕ} (h : t1 ≤ t2) :
    tgCalculateAge 22 72 t1 ≤ tgCalculateAge 22 72 t2 := by
  unfold tgCalculateAge
  by_cases h1 : t1 = 0
  · simp only [h1, if_true, if_pos rfl]
    by_cases h2 : t2 = 0
    · simp [h2]
    · simp only [h2, if_false]
      refine le_min ?_ (by norm_num)
      calc (22 : ℚ) = round2 22 := round2_22.symm
        _ ≤ round2 (22 + (t2 : ℚ) / 48) := by
          refine round2_mono ?_
          have hnn : (0 : ℚ) ≤ (t2 : ℚ) / 48 := by positivity
          linarith
  · have h2 : t2 ≠ 0 := fun hh => h1 (Nat.le_zero.mp (hh ▸ h))
    simp only [h1, h2, if_false]
    refine min_le_min (round2_mono ?_) le_rfl
    have : (t1 : ℚ) ≤ (t2 : ℚ) := by exact_mod_cast h
    linarith

theorem tgCalculateAge_eq_spec (t : ℕ) :
    tgCalculateAge 22 72 t = specAge 22 72 48 t := by
  unfold tgCalculateAge specAge
  by_cases h0 : t = 0
  · subst h0
    norm_num [round2]
  · simp only [h0, if_false]
    rcases le_or_lt (22 + (t : ℚ) / 48) 72 with hle | hlt
    · rw [min_eq_left hle, min_eq_left]
      calc round2 (22 + (t : ℚ) / 48) ≤ round2 72 := round2_mono hle
        _ = 72 := round2_72
    · rw [min_eq_right hlt.le, min_eq_right]
      · exact round2_72.symm
      · calc (72 : ℚ) = round2 72 := round2_72.symm
          _ ≤ round2 (22 + (t : ℚ) / 48) := round2_mono hlt.le

theorem dgCalculateAge_mono {t1 t2 : ℕ} (h : t1 ≤ t2) :
    dgCalculateAge t1 ≤ dgCalculateAge t2 := by
  unfold dgCalculateAge
  refine round2_mono ?_
  have : (t1 : ℚ) ≤ (t2 : ℚ) := by exact_mod_cast h
  linarith

theorem dgCalculateAge_unbounded (bound : ℚ) : ∃ t : ℕ, bound < dgCalculateAge t := by
  refine ⟨48 * (⌈bound⌉.toNat + 1), ?_⟩
  unfold dgCalculateAge
  have hk : ((48 : ℚ) * ((⌈bound⌉.toNat : ℚ) + 1)) / 48 = (⌈bound⌉.toNat : ℚ) + 1 := by
    ring
  have hcast : ((48 * (⌈bound⌉.toNat + 1) : ℕ) : ℚ) = 48 * ((⌈bound⌉.toNat : ℚ) + 1) := by
    push_cast; ring
  rw [hcast, hk]
  have h1 : (22 : ℚ) + ((⌈bound⌉.toNat : ℚ) + 1) = ((23 + ⌈bound⌉.toNat : ℕ) : ℚ) := by
    push_cast; ring
  rw [h1, round2_nat]
  have h2 : bound ≤ (⌈bound⌉.toNat : ℚ) := by
    calc bound ≤ (⌈bound⌉ : ℚ) := Int.le_ceil bound
      _ ≤ ((⌈bound⌉.toNat : ℤ) : ℚ) := by exact_mod_cast Int.self_le_toNat _
      _ = (⌈bound⌉.toNat : ℚ) := by push_cast; ring
  push_cast
  linarith

/-- C3 counterexample: DigestGenerator._calculateAge applies no endAge cap,
so at totalPosts = 4800 it returns 122 while the specified formula
min(startAge + totalPosts/postsPerYear, endAge) rounded to two decimals
(startAge 22, endAge 72, 48 posts per year) returns 72.  The claim that
age(totalPosts) equals the capped formula and never exceeds endAge is
therefore false on the code. -/
theorem C3_counterexample :
    dgCalculateAge 4800 ≠ specAge 22 72 48 4800 ∧ 72 < dgCalculateAge 4800 := by
  constructor
  · norm_num [dgCalculateAge, specAge, round2, min_def]
  · norm_num [dgCalculateAge, round2]

/-- C3 amended: TweetGenerator._calculateAge agrees with the specified
capped-and-rounded pacing formula (startAge 22, endAge 72, 48 posts per
simulated year), is monotone in the post count, and never exceeds endAge;
DigestGenerator._calculateAge is monotone as well but omits the endAge cap
entirely, so it exceeds every bound for a large enough post count. -/
theorem C3_age_pacing_amended :
    (∀ t : ℕ, tgCalculateAge 22 72 t = specAge 22 72 48 t) ∧
    (∀ t1 t2 : ℕ, t1 ≤ t2 → tgCalculateAge 22 72 t1 ≤ tgCalculateAge 22 72 t2) ∧
    (∀ t : ℕ, tgCalculateAge 22 72 t ≤ 72) ∧
    (∀ t1 t2 : ℕ, t1 ≤ t2 → dgCalculateAge t1 ≤ dgCalculateAge t2) ∧
    (∀ bound : ℚ, ∃ t : ℕ, bound < dgCalculateAge t) :=
  ⟨tgCalculateAge_eq_spec, fun _ _ h => tgCalculateAge_mono h,
   tgCalculateAge_le_endAge, fun _ _ h => dgCalculateAge_mono h,
   dgCalculateAge_unbounded⟩

/-- C3 witness: the amended theorem evaluated at concrete post counts
48 ≤ 96. -/
theorem C3_witness :
    tgCalculateAge 22 72 48 = specAge 22 72 48 48 ∧
    (48 ≤ 96 ∧ tgCalculateAge 22 72 48 ≤ tgCalculateAge 22 72 96) ∧
    tgCalculateAge 22 72 4800 ≤ 72 ∧
    (48 ≤ 96 ∧ dgCalculateAge 48 ≤ dgCalculateAge 96) ∧
    (∃ t : ℕ, 1000 < dgCalculateAge t) :=
  ⟨C3_age_pacing_amended.1 48,
   ⟨by norm_num, C3_age_pacing_amended.2.1 48 96 (by norm_num)⟩,
   C3_age_pacing_amended.2.2.1 4800,
   ⟨by norm_num, C3_age_pacing_amended.2.2.2.1 48 96 (by norm_num)⟩,
   C3_age_pacing_amended.2.2.2.2 1000⟩

/-- C10: the daily tweet limit check is vacuously true: for positive
maxTweetsPerDay the value totalTweets mod maxTweetsPerDay is always
strictly below maxTweetsPerDay, so _checkDailyLimit returns true on every
input and the Daily-tweet-limit-reached branch of runOnce is unreachable
through this check. -/
theorem C10_daily_limit_vacuous (m t : ℕ) (h : 0 < m) :
    checkDailyLimit m t = true := by
  simp only [checkDailyLimit, decide_eq_true_eq]
  exact Nat.mod_lt _ h

/-- C10 witness: the configured maxTweetsPerDay 4800 is positive and the
check passes at a concrete count. -/
theorem C10_witness : 0 < 4800 ∧ checkDailyLimit 4800 123 = true :=
  ⟨by norm_num, C10_daily_limit_vacuous 4800 123 (by norm_num)⟩

/-- The analysis record _analyzeRepliesForStoryAdjustment builds for each
reply (tweet_generator.js 348-368): the cleaned content together with the
classifier outputs type, impact, mood and keywords. -/
structure CommentAnalysis where
  impact : String
  types : List String
  keywords : List String
  content : String
  mood : String

/-- TweetGenerator._calculateRelevanceScore (tweet_generator.js 383-409):
score starts from the impact weight, adds 2 for each of the four type tags
present, the keyword count capped at 3, the content-length bonus and a
non-neutral mood bonus. -/
def calculateRelevanceScore (a : CommentAnalysis) : ℕ :=
  let s1 : ℕ := if a.impact = "high" then 3 else if a.impact = "medium" then 2 else 1
  let s2 : ℕ := s1 + (if a.types.contains "TECH" then 2 else 0)
  let s3 : ℕ := s2 + (if a.types.contains "CAREER" then 2 else 0)
  let s4 : ℕ := s3 + (if a.types.contains "LIFE_EVENT" then 2 else 0)
  let s5 : ℕ := s4 + (if a.types.contains "RELATIONSHIP" then 2 else 0)
  let s6 : ℕ := s5 + min a.keywords.length 3
  let s7 : ℕ := s6 + (if 50 < a.content.length then 2 else if 20 < a.content.length then 1 else 0)
  s7 + (if a.mood ≠ "neutral" then 1 else 0)

/-- The impact weight table of the specification: high 3, medium 2, low 1
(and anything else 1, matching the code where low is the fall-through). -/
def impactWeight (impact : String) : ℕ :=
  if impact = "high" then 3 else if impact = "medium" then 2 else 1

/-- The length bonus of the specification: 2 above 50 characters, 1 above
20, otherwise 0. -/
def lengthBonus (content : String) : ℕ :=
  if 50 < content.length then 2 else if 20 < content.length then 1 else 0

/-- The relevance score exactly as the specification words it:
impactWeight + 2 per matched type among the four families + keywords
capped at 3 + lengthBonus + mood bonus. -/
def specRelevanceScore (a : CommentAnalysis) : ℕ :=
  impactWeight a.impact
    + 2 * (List.filter (fun ty => a.types.contains ty)
        ["TECH", "CAREER", "LIFE_EVENT", "RELATIONSHIP"]).length
    + min a.keywords.length 3
    + lengthBonus a.content
    + (if a.mood ≠ "neutral" then 1 else 0)

/-- C6: for every analyzed comment the relevanceScore computed by
_calculateRelevanceScore equals impactWeight(impact) + 2 per matched type
among TECH, CAREER, LIFE_EVENT and RELATIONSHIP + min(#keywords, 3) +
lengthBonus(content) + 1 for a non-neutral mood. -/
theorem C6_relevance_score_formula (a : CommentAnalysis) :
    calculateRelevanceScore a = specRelevanceScore a := by
  unfold calculateRelevanceScore specRelevanceScore impactWeight lengthBonus
  by_cases hT : "TECH" ∈ a.types <;> by_cases hC : "CAREER" ∈ a.types <;>
    by_cases hL : "LIFE_EVENT" ∈ a.types <;> by_cases hR : "RELATIONSHIP" ∈ a.types <;>
    simp [hT, hC, hL, hR]

/-- One entry of ongoing_tweets.json as read by the tech evolution
generator of unnamed part_005: a text and the age recorded on it. -/
structure OngoingTweet where
  text : String
  age : ℚ

/-- TechEvolutionGenerator._shouldUpdateTech (unnamed part_005 lines
119-135): false on an empty tweet list, otherwise compares the latest
tweet's age minus the 22.0 base against currentTech.year - 2025 plus the
five-year epoch length. -/
def shouldUpdateTech (tweets : List OngoingTweet) (techYear : ℤ) : Bool :=
  match tweets.getLast? with
  | none => false
  | some latest => ((techYear : ℚ) - 2025) + 5 ≤ latest.age - 22

/-- The remaining posts until the next epoch boundary as the specification
words it: epochs start at story year techYear - 2025 after age 22, last
epochYears = 5 years, and 48 posts make a simulated year. -/
def postsToNextEpochBoundary (age : ℚ) (techYear : ℤ) : ℚ :=
  ((22 + ((techYear : ℚ) - 2025) + 5) - age) * 48

/-- The tech-epoch cadence exactly as the specification words it: due once
the remaining posts-to-boundary is at or below the updateThreshold. -/
def specTechEpochDue (age : ℚ) (techYear : ℤ) (updateThreshold : ℚ) : Bool :=
  postsToNextEpochBoundary age techYear ≤ updateThreshold

/-- C2 counterexample: with the current epoch at year 2025 and the latest
post at age 26.5 there are 24 posts left to the age-27 epoch boundary, at
or below the claimed updateThreshold of 48, so the claim requires the
tech-epoch decision to be true; _shouldUpdateTech returns false because it
waits for the age to reach the boundary itself. -/
theorem C2_counterexample :
    shouldUpdateTech [⟨"t", 53/2⟩] 2025 = false ∧
    specTechEpochDue (53/2) 2025 48 = true := by
  constructor
  · norm_num [shouldUpdateTech]
  · norm_num [specTechEpochDue, postsToNextEpochBoundary]

/-- C2 amended: the tech-epoch decision of _shouldUpdateTech has no posts
lead time at all: on a nonempty tweet list it is due exactly when the
remaining posts-to-boundary computed from the latest tweet's age is at or
below zero, that is when the simulated clock has already reached the next
epoch boundary, not 48 posts before it. -/
theorem C2_tech_epoch_amended (tweets : List OngoingTweet) (latest : OngoingTweet)
    (techYear : ℤ) (h : tweets.getLast? = some latest) :
    shouldUpdateTech tweets techYear = true ↔
      postsToNextEpochBoundary latest.age techYear ≤ 0 := by
  unfold shouldUpdateTech postsToNextEpochBoundary
  rw [h]
  simp only [decide_eq_true_eq]
  constructor <;> intro hh <;> nlinarith

/-- C2 witness: the amended equivalence evaluated on a one-element tweet
list at age 27 with the current tech year 2025. -/
theorem C2_witness :
    ([⟨"t", 27⟩] : List OngoingTweet).getLast? = some ⟨"t", 27⟩ ∧
      (shouldUpdateTech [⟨"t", 27⟩] 2025 = true ↔
        postsToNextEpochBoundary (27 : ℚ) 2025 ≤ 0) :=
  ⟨rfl, C2_tech_epoch_amended [⟨"t", 27⟩] ⟨"t", 27⟩ 2025 rfl⟩

/-- Substring matching on character lists: charsStartWith checks whether
the pattern is an initial segment. -/
def charsStartWith : List Char → List Char → Bool
  | _, [] => true
  | [], _ :: _ => false
  | c :: cs, p :: ps => c == p && charsStartWith cs ps

/-- Substring occurrence on character lists by scanning every position. -/
def charsContain : List Char → List Char → Bool
  | [], p => p.isEmpty
  | c :: cs, p => charsStartWith (c :: cs) p || charsContain cs p

/-- JS String.prototype.includes and single-literal regex tests: substring
occurrence of pat in s. -/
def strContains (s pat : String) : Bool := charsContain s.data pat.data

/-- One entry of story.keyPlotPoints as pushed by
_checkAndRecordLifeEvents (tweet_generator.js 710-741): the one-time life
event with its trigger age (the pushed timestamp is wall-clock and not
modelled). -/
structure LifeEventPoint where
  type : String
  title : String
  description : String
  age : ℚ
deriving DecidableEq

/-- The three one-time life events of _checkAndRecordLifeEvents. -/
def lifeEvents : List LifeEventPoint :=
  [⟨"relationship", "遇到人生伴侣", "在事业稳定发展时期，遇到了能够互相理解和支持的伴侣。", 27⟩,
   ⟨"marriage", "结婚", "与相恋多年的伴侣共同开启人生的新篇章。", 32⟩,
   ⟨"family", "喜得贵子", "迎来新角色，成为一名父亲。", 34⟩]

/-- One iteration of the events.forEach body in _checkAndRecordLifeEvents:
push the event only if the age threshold is reached and no plot point of
the same type is already stored. -/
def recordLifeEvent (pts : List LifeEventPoint) (currentAge : ℚ)
    (ev : LifeEventPoint) : List LifeEventPoint :=
  if ev.age ≤ currentAge ∧ pts.any (fun p => p.type == ev.type) = false
  then pts ++ [ev] else pts

/-- TweetGenerator._checkAndRecordLifeEvents (tweet_generator.js 710-741)
applied to the story.keyPlotPoints collection. -/
def checkAndRecordLifeEvents (pts : List LifeEventPoint) (currentAge : ℚ) :
    List LifeEventPoint :=
  lifeEvents.foldl (fun acc ev => recordLifeEvent acc currentAge ev) pts

/-- Number of stored life-event plot points of a given type. -/
def countLifeType (pts : List LifeEventPoint) (ty : String) : ℕ :=
  (pts.filter (fun p => p.type == ty)).length

/-- One tweet of story.tweets in XaviersSim.json: the generated text and
the age stamped on it by _saveTweets. -/
structure StoryTweet where
  text : String
  age : ℚ
deriving DecidableEq

/-- One key moment as pushed to the top-level keyPlotPoints collection by
_updateStoryProgress (tweet_generator.js 994-1026); only the type and the
matched tweet text participate, the copied age and timestamp are not
modelled. -/
structure KeyMoment where
  type : String
  content : String
deriving DecidableEq

/-- The keyword pattern table of _identifyKeyMoments (tweet_generator.js
1028-1050), in JS object insertion order; each regex is an alternation of
literal substrings. -/
def keywordPatterns : List (String × List String) :=
  [("milestone", ["突破", "里程碑", "成功", "实现"]),
   ("relationship", ["爱情", "友情", "团队", "伙伴"]),
   ("challenge", ["困难", "挑战", "问题", "危机"]),
   ("growth", ["成长", "学习", "进步", "改变"]),
   ("achievement", ["完成", "达成", "获得", "赢得"])]

/-- TweetGenerator._getKeyMomentType: the first pattern family that
matches, general when none does. -/
def getKeyMomentType (text : String) : String :=
  match keywordPatterns.find? (fun kp => kp.2.any (strContains text)) with
  | some kp => kp.1
  | none => "general"

/-- TweetGenerator._identifyKeyMoments: tweets matching any pattern family
become key moments tagged with their first matching type. -/
def identifyKeyMoments (tweets : List StoryTweet) : List KeyMoment :=
  (tweets.filter
      (fun t => keywordPatterns.any (fun kp => kp.2.any (strContains t.text)))).map
    (fun t => ⟨getKeyMomentType t.text, t.text⟩)

/-- The keyPlotPoints effect of TweetGenerator._updateStoryProgress
(tweet_generator.js 994-1026): every identified key moment is pushed, with
no check against the types already present. -/
def updateStoryProgressPlotPoints (pts : List KeyMoment)
    (tweets : List StoryTweet) : List KeyMoment :=
  pts ++ identifyKeyMoments tweets

/-- Number of stored key moments of a given type. -/
def countMomentType (pts : List KeyMoment) (ty : String) : ℕ :=
  (pts.filter (fun p => p.type == ty)).length

theorem countLifeType_append (pts : List LifeEventPoint) (ev : LifeEventPoint)
    (ty : String) :
    countLifeType (pts ++ [ev]) ty
      = countLifeType pts ty + (if ev.type == ty then 1 else 0) := by
  by_cases h : ev.type == ty <;>
    simp [countLifeType, List.filter_append, List.filter_cons, h]

theorem countLifeType_eq_zero_of_any_eq_false {pts : List LifeEventPoint}
    {ty : String} (h : pts.any (fun p => p.type == ty) = false) :
    countLifeType pts ty = 0 := by
  unfold countLifeType
  rw [List.length_eq_zero, List.filter_eq_nil_iff]
  intro p hp
  have := List.any_eq_false.mp h p hp
  simpa using this

theorem recordLifeEvent_count_of_present {pts : List LifeEventPoint} {ty : String}
    (currentAge : ℚ) (ev : LifeEventPoint) (h : 1 ≤ countLifeType pts ty) :
    countLifeType (recordLifeEvent pts currentAge ev) ty = countLifeType pts ty := by
  unfold recordLifeEvent
  split
  · next hc =>
      rw [countLifeType_append]
      by_cases hty : ev.type == ty
      · exfalso
        have h0 : countLifeType pts ev.type = 0 :=
          countLifeType_eq_zero_of_any_eq_false hc.2
        rw [eq_of_beq hty] at h0
        omega
      · simp [hty]
  · rfl

theorem recordLifeEvent_count_le (pts : List LifeEventPoint) (currentAge : ℚ)
    (ev : LifeEventPoint) (ty : String) :
    countLifeType (recordLifeEvent pts currentAge ev) ty
      ≤ max (countLifeType pts ty) 1 := by
  unfold recordLifeEvent
  split
  · next hc =>
      rw [countLifeType_append]
      by_cases hty : ev.type == ty
      · have h0 : countLifeType pts ev.type = 0 :=
          countLifeType_eq_zero_of_any_eq_false hc.2
        rw [eq_of_beq hty] at h0
        simp [hty, h0]
      · simp [hty]
  · exact le_max_left _ _

theorem foldRecord_count_of_present (evs : List LifeEventPoint)
    (pts : List LifeEventPoint) (currentAge : ℚ) (ty : String)
    (h : 1 ≤ countLifeType pts ty) :
    countLifeType (evs.foldl (fun acc ev => recordLifeEvent acc currentAge ev) pts) ty
      = countLifeType pts ty := by
  induction evs generalizing pts with
  | nil => rfl
  | cons e es ih =>
    rw [List.foldl_cons]
    have hstep := recordLifeEvent_count_of_present currentAge e h
    rw [ih _ (by rw [hstep]; exact h), hstep]

theorem foldRecord_count_le (evs : List LifeEventPoint)
    (pts : List LifeEventPoint) (currentAge : ℚ) (ty : String) :
    countLifeType (evs.foldl (fun acc ev => recordLifeEvent acc currentAge ev) pts) ty
      ≤ max (countLifeType pts ty) 1 := by
  induction evs generalizing pts with
  | nil => exact le_max_left _ _
  | cons e es ih =>
    rw [List.foldl_cons]
    calc countLifeType
          (es.foldl (fun acc ev => recordLifeEvent acc currentAge ev)
            (recordLifeEvent pts currentAge e)) ty
        ≤ max (countLifeType (recordLifeEvent pts currentAge e) ty) 1 := ih _
      _ ≤ max (max (countLifeType pts ty) 1) 1 :=
          max_le_max (recordLifeEvent_count_le pts currentAge e ty) le_rfl
      _ = max (countLifeType pts ty) 1 := by rw [max_assoc, max_self]

/-- C7 counterexample: _updateStoryProgress pushes identified key moments
into the keyPlotPoints collection without any check against the types
already present, so inserting a milestone moment while a milestone entry
is already stored yields two stored entries of that type instead of
being a no-op. -/
theorem C7_counterexample :
    countMomentType
      (updateStoryProgressPlotPoints [⟨"milestone", "达成里程碑"⟩]
        [⟨"实现了目标", 23⟩]) "milestone" = 2 := by
  decide

/-- C7 amended: the life-event insertion path _checkAndRecordLifeEvents is
idempotent per type: when a plot point of a type is already stored the
stored count of that type is unchanged, and the stored count of every type
never grows beyond one from a state satisfying the at-most-one invariant;
the _updateStoryProgress path lacks this deduplication (see the
counterexample). -/
theorem C7_plotpoint_amended (pts : List LifeEventPoint) (currentAge : ℚ)
    (ty : String) :
    (1 ≤ countLifeType pts ty →
      countLifeType (checkAndRecordLifeEvents pts currentAge) ty
        = countLifeType pts ty) ∧
    countLifeType (checkAndRecordLifeEvents pts currentAge) ty
      ≤ max (countLifeType pts ty) 1 :=
  ⟨fun h => foldRecord_count_of_present lifeEvents pts currentAge ty h,
   foldRecord_count_le lifeEvents pts currentAge ty⟩

/-- C7 witness: with a marriage plot point already stored at age 33 the
recorder leaves exactly one marriage entry. -/
theorem C7_witness :
    1 ≤ countLifeType [⟨"marriage", "结婚", "d", 32⟩] "marriage" ∧
    countLifeType
        (checkAndRecordLifeEvents [⟨"marriage", "结婚", "d", 32⟩] 33) "marriage"
      = countLifeType [⟨"marriage", "结婚", "d", 32⟩] "marriage" ∧
    countLifeType
        (checkAndRecordLifeEvents [⟨"marriage", "结婚", "d", 32⟩] 33) "marriage"
      ≤ max (countLifeType [⟨"marriage", "结婚", "d", 32⟩] "marriage") 1 := by
  refine ⟨by decide, ?_, ?_⟩
  · exact (C7_plotpoint_amended [⟨"marriage", "结婚", "d", 32⟩] 33 "marriage").1
      (by decide)
  · exact (C7_plotpoint_amended [⟨"marriage", "结婚", "d", 32⟩] 33 "marriage").2

/-- One entry of story.digests in XaviersSim.json.  Entries pushed by
_saveDigest carry an age and a tweetCount; the digest seeded by
_initializeSummary has neither, hence the Option fields.  The wall-clock
timestamp field is not modelled. -/
structure StoredDigest where
  content : String
  age : Option ℚ
  tweetCount : Option ℕ
deriving DecidableEq

/-- The parsed XaviersSim.json main file as the generators read and write
it.  metadata.currentAge is an Option because the file written by
_initializeSummary has no currentAge key inside metadata.  The personal
section and stats.yearProgress are mutated by the code but read by no
claim and are not modelled. -/
structure StoryDoc where
  metadataCurrentAge : Option ℚ
  metadataCurrentPhase : String
  tweets : List StoryTweet
  digests : List StoredDigest
  lifePoints : List LifeEventPoint
  statsTotalTweets : ℕ
  digestCount : ℕ
deriving DecidableEq

/-- The on-disk condition of the main state file when a load begins. -/
inductive StateFile where
  | missing
  | corrupt
  | valid (doc : StoryDoc)
deriving DecidableEq

/-- The two load failures getCurrentSummary can raise: the rethrown
JSON.parse error of a corrupt file, and the TypeError thrown when
metadata.currentAge is undefined and toFixed is called on it. -/
inductive LoadErr where
  | parseError
  | typeError
deriving DecidableEq

/-- The summary object getCurrentSummary returns to runOnce.  The
yearProgress field is a pure display value read by no claim and is not
modelled. -/
structure Summary where
  currentAge : ℚ
  totalTweets : ℕ
  lastDigest : Option String
  isCompleted : Bool
deriving DecidableEq

/-- The fresh file written by _initializeSummary (tweet_generator.js
175-211): no tweets, one seeded digest, and a metadata object holding
protagonist, startAge and currentPhase - but no currentAge key. -/
def initialDoc : StoryDoc :=
  { metadataCurrentAge := none
    metadataCurrentPhase := "early_career"
    tweets := []
    digests := [⟨"Xavier is at a crossroads, seriously considering leaving college to focus on quant trading and his involvement with $XVI. This marks a significant shift in his life priorities and indicates a desire to take control of his future..", none, none⟩]
    lifePoints := []
    statsTotalTweets := 0
    digestCount := 0 }

/-- TweetGenerator.getCurrentSummary (tweet_generator.js 126-173).  A
missing file (ENOENT) is replaced by the freshly written initialDoc, after
which the summary construction dereferences the absent
metadata.currentAge and throws; any other read or parse failure is
rethrown unchanged; on a valid file the summary is built, flagged
completed once metadata.currentAge has reached endAge. -/
def getCurrentSummary (endAge : ℚ) (file : StateFile) :
    Except LoadErr Summary × StateFile :=
  match file with
  | .missing => (.error .typeError, .valid initialDoc)
  | .corrupt => (.error .parseError, .corrupt)
  | .valid doc =>
    match doc.metadataCurrentAge with
    | none => (.error .typeError, .valid doc)
    | some a =>
      if endAge ≤ a then
        (.ok { currentAge := endAge
               totalTweets := doc.tweets.length
               lastDigest := doc.digests.getLast?.map (fun d => d.content)
               isCompleted := true }, .valid doc)
      else
        (.ok { currentAge := round2 a
               totalTweets := doc.tweets.length
               lastDigest := doc.digests.getLast?.map (fun d => d.content)
               isCompleted := false }, .valid doc)

/-- C5 counterexample: loading a state file whose contents cannot be
parsed does not construct a fresh initial state - getCurrentSummary
rethrows the parse error and leaves the file as it was, so a load can
fail fatally for exactly the reason the claim excludes. -/
theorem C5_counterexample :
    (getCurrentSummary 72 StateFile.corrupt).1 = Except.error LoadErr.parseError ∧
    (getCurrentSummary 72 StateFile.corrupt).2 = StateFile.corrupt := by
  constructor <;> rfl

/-- C5 amended: only a missing (ENOENT) state file triggers fresh-state
construction; the fresh file is persisted with no tweets and one seeded
digest, but its metadata carries no currentAge, so even that load throws
a TypeError instead of returning the fresh state; a corrupt file's parse
error is rethrown with nothing persisted.  In neither case does the load
return a state. -/
theorem C5_state_recovery_amended (endAge : ℚ) :
    (getCurrentSummary endAge StateFile.missing).2 = StateFile.valid initialDoc ∧
    (getCurrentSummary endAge StateFile.missing).1 = Except.error LoadErr.typeError ∧
    initialDoc.metadataCurrentAge = none ∧
    initialDoc.tweets = [] ∧
    initialDoc.digests.length = 1 ∧
    (getCurrentSummary endAge StateFile.corrupt).1 = Except.error LoadErr.parseError ∧
    (getCurrentSummary endAge StateFile.corrupt).2 = StateFile.corrupt := by
  refine ⟨rfl, rfl, rfl, rfl, rfl, rfl, rfl⟩

/-- The local digest template content assembled by _getLocalDigest from
Introduction.json.  The data file lives outside the source tree and the
assembled Chinese text is read by no claim, so the interpolated string is
represented by this constant. -/
def localDigestContent : String := "这是Xavier故事的开始。"

/-- DigestGenerator._getLocalDigest (digest_generator.js 100-122): a
digest whose age is currentAge rounded by toFixed(2) and whose tweetCount
is the configured digestInterval. -/
def localDigest (digestInterval : ℕ) (currentAge : ℚ) : StoredDigest :=
  { content := localDigestContent
    age := some (round2 currentAge)
    tweetCount := some digestInterval }

/-- DigestGenerator._validateDigestFormat (digest_generator.js 157-162):
content must include the three section markers. -/
def validateDigestFormat (c : String) : Bool :=
  strContains c "这段时期" && strContains c "主要进展：" && strContains c "未来展望："

/-- DigestGenerator._formatDigest (digest_generator.js 164-220)
reassembles the text with randomly drawn default templates; no claim
reads digest text, so the random reassembly is collapsed into this
constant. -/
def formatDigestResult : String := "重新格式化的摘要"

/-- DigestGenerator._generateAIDigest (digest_generator.js 124-155): an
AI failure or an absent or too-short response falls back to the local
template; otherwise the response text (reformatted when the format
markers are missing) becomes the digest, with tweetCount the size of the
trailing window that was read. -/
def aiDigest (digestInterval : ℕ) (aiContent : Option String) (recentCount : ℕ)
    (currentAge : ℚ) : StoredDigest :=
  match aiContent with
  | none => localDigest digestInterval currentAge
  | some c =>
    if c.length < 50 then localDigest digestInterval currentAge
    else
      { content := if validateDigestFormat c then c else formatDigestResult
        age := some (round2 currentAge)
        tweetCount := some recentCount }

/-- DigestGenerator._saveDigest (digest_generator.js 237-268): pushes the
digest with its age overwritten by the toFixed-rounded calculated age,
refreshes stats.digestCount from the new list length and writes
metadata.currentAge from the same calculated age. -/
def saveDigest (doc : StoryDoc) (digest : StoredDigest) (calculatedAge : ℚ) :
    StoryDoc :=
  { doc with
    digests := doc.digests ++ [{ digest with age := some (round2 calculatedAge) }]
    digestCount := doc.digests.length + 1
    metadataCurrentAge := some (round2 calculatedAge) }

/-- DigestGenerator.checkAndGenerateDigest (digest_generator.js 49-87).
Despite its name the function applies no cadence condition: the trailing
window read by _getRecentTweets only feeds the prompt and the saved
tweetCount, a digest is assembled through the local or the AI path on
every call, and since both paths always yield a digest object the save
branch always runs.  The age saved with the digest comes from the
uncapped DigestGenerator._calculateAge at the passed total. -/
def checkAndGenerateDigest (digestInterval : ℕ) (useLocal : Bool)
    (aiContent : Option String) (doc : StoryDoc) (currentAge : ℚ)
    (totalTweets : ℕ) : Option StoredDigest × StoryDoc :=
  let recent := doc.tweets.drop (doc.tweets.length - digestInterval)
  let digest :=
    if useLocal then localDigest digestInterval currentAge
    else aiDigest digestInterval aiContent recent.length currentAge
  (some digest, saveDigest doc digest (dgCalculateAge totalTweets))

/-- The significant-event keyword predicate as the specification words it
(no such predicate exists anywhere in the source); the sample inputs
matched against it here are lowercase, so case folding is omitted. -/
def specSignificantKeywords : List String :=
  ["breakthrough", "milestone", "launch", "partnership"]

/-- Number of posts in a window matching the specification's
significant-event keyword predicate. -/
def specSignificantCount (tweets : List StoryTweet) : ℕ :=
  (tweets.filter (fun t => specSignificantKeywords.any (strContains t.text))).length

/-- A concrete state for the digest-cadence counterexample: four plain
posts since the single stored digest, none containing a significant-event
keyword. -/
def c1Doc : StoryDoc :=
  { metadataCurrentAge := some 22
    metadataCurrentPhase := "early_career"
    tweets := [⟨"hello one", 22⟩, ⟨"hello two", 22⟩, ⟨"hello three", 22⟩,
               ⟨"hello four", 22⟩]
    digests := [⟨"seed", none, none⟩]
    lifePoints := []
    statsTotalTweets := 4
    digestCount := 1 }

/-- C1 counterexample: with digestInterval 12 and a trailing window of 4
posts since the last digest containing zero significant-event keyword
matches, the digest decision is nevertheless due - checkAndGenerateDigest
produces and appends a digest although posts-since-last-digest is 4, not
12, refuting that the decision is due exactly at 12 and not before. -/
theorem C1_counterexample :
    specSignificantCount c1Doc.tweets = 0 ∧
    c1Doc.tweets.length = 4 ∧
    ¬(((checkAndGenerateDigest 12 false none c1Doc 22 4).1.isSome = true) ↔
        c1Doc.tweets.length = 12) ∧
    (checkAndGenerateDigest 12 false none c1Doc 22 4).2.digests.length
      = c1Doc.digests.length + 1 := by
  refine ⟨by decide, by decide, ?_, by decide⟩
  intro h
  have h4 : c1Doc.tweets.length = 12 := h.mp rfl
  exact absurd h4 (by decide)

/-- C1 amended: checkAndGenerateDigest applies no cadence condition at
all: for every digestInterval, AI mode, AI response, state, age and post
count it produces a digest and appends exactly one entry to
story.digests; the digestInterval only sets the size of the trailing
window read for the prompt and the local digest's reported tweetCount, so
with digestInterval 12 a digest is generated at every call, not exactly
when posts-since-last-digest equals 12. -/
theorem C1_digest_cadence_amended (digestInterval : ℕ) (useLocal : Bool)
    (aiContent : Option String) (doc : StoryDoc) (currentAge : ℚ)
    (totalTweets : ℕ) :
    (checkAndGenerateDigest digestInterval useLocal aiContent doc currentAge
        totalTweets).1.isSome = true ∧
    (checkAndGenerateDigest digestInterval useLocal aiContent doc currentAge
        totalTweets).2.digests.length = doc.digests.length + 1 := by
  constructor
  · rfl
  · simp [checkAndGenerateDigest, saveDigest]

/-- One backup file in the backups directory; time is its true creation
timestamp, the one encoded in its XaviersSim_ filename. -/
structure BackupFile where
  time : ℤ
deriving DecidableEq

/-- Oldest-first ordering: the lexicographic order of the timestamped
filenames used by Array.prototype.sort() in DataManager, which on these
fixed-width names is ascending creation time. -/
def olderEq (a b : BackupFile) : Prop := a.time ≤ b.time

instance : DecidableRel olderEq :=
  fun a b => inferInstanceAs (Decidable (a.time ≤ b.time))

instance : IsTotal BackupFile olderEq := ⟨fun a b => le_total a.time b.time⟩

instance : IsTrans BackupFile olderEq :=
  ⟨fun _ _ _ h1 h2 => le_trans h1 h2⟩

/-- TweetGenerator._cleanupOldBackups (tweet_generator.js 1106-1131).
The code intends a newest-first sort, but it builds each key by taking
the timestamp piece of the filename, replacing every dash with a colon,
and passing the result to the Date constructor - that replacement also
turns the date dashes of the XaviersSim_ names into colons (for example
2026-10-11T22-44-03-123Z becomes 2026:10:11T22:44:03:123Z), an invalid
date, so the comparator b.time - a.time is NaN for every pair; ECMA-262
SortCompare coerces NaN to +0 and the sort is stable, hence the array
keeps the readdir listing order unchanged.  The retained files are
therefore the first maxFiles of the directory listing, irrespective of
their ages. -/
def cleanupOldBackups (maxFiles : ℕ) (listing : List BackupFile) :
    List BackupFile :=
  listing.take maxFiles

/-- The files _cleanupOldBackups unlinks: the positions beyond maxFiles
of the directory listing, irrespective of their ages. -/
def cleanupDeleted (maxFiles : ℕ) (listing : List BackupFile) :
    List BackupFile :=
  listing.drop maxFiles

/-- TweetGenerator._createBackup (tweet_generator.js 1081-1104): copy the
main file into a new timestamped backup, then prune with
_cleanupOldBackups.  The listing is the directory order readdir returns;
the new file is modelled at the end of it, one possible placement - the
counterexample below needs no assumption on where it appears. -/
def tgCreateBackup (maxFiles : ℕ) (listing : List BackupFile)
    (newB : BackupFile) : List BackupFile :=
  cleanupOldBackups maxFiles (listing ++ [newB])

/-- DataManager._createBackup (DataManager section bundled with
tech_evolution_generator.js, lines 228-250): copy a new backup; when more
than 10 files are then present, unlink sort()[0], the lexicographically
first and hence oldest backup.  The retained directory is represented in
name order. -/
def dmCreateBackup (backups : List BackupFile) (newB : BackupFile) :
    List BackupFile :=
  if 10 < ((backups ++ [newB]).insertionSort olderEq).length
  then ((backups ++ [newB]).insertionSort olderEq).drop 1
  else (backups ++ [newB]).insertionSort olderEq

theorem tgCreateBackup_length_le (maxFiles : ℕ) (listing : List BackupFile)
    (b : BackupFile) : (tgCreateBackup maxFiles listing b).length ≤ maxFiles := by
  unfold tgCreateBackup cleanupOldBackups
  exact List.length_take_le maxFiles _

theorem dmCreateBackup_length_le {backups : List BackupFile} (b : BackupFile)
    (h : backups.length ≤ 10) : (dmCreateBackup backups b).length ≤ 10 := by
  unfold dmCreateBackup
  have hlen : ((backups ++ [b]).insertionSort olderEq).length
      = backups.length + 1 := by
    rw [(List.perm_insertionSort olderEq _).length_eq, List.length_append]
    rfl
  by_cases hgt : 10 < ((backups ++ [b]).insertionSort olderEq).length
  · rw [if_pos hgt, List.length_drop, hlen]; omega
  · rw [if_neg hgt]
    rw [hlen] at hgt ⊢
    omega

theorem dmFold_length_le (saves : List BackupFile) :
    (saves.foldl dmCreateBackup []).length ≤ 10 := by
  have general : ∀ (ss : List BackupFile) (init : List BackupFile),
      init.length ≤ 10 → (ss.foldl dmCreateBackup init).length ≤ 10 := by
    intro ss
    induction ss with
    | nil => intro init h; exact h
    | cons s rest ih =>
        intro init h
        exact ih _ (dmCreateBackup_length_le s h)
  exact general saves [] (by simp)

theorem dmCreateBackup_deletes_oldest (backups : List BackupFile)
    (b k : BackupFile)
    (hgt : 10 < ((backups ++ [b]).insertionSort olderEq).length)
    (hk : k ∈ dmCreateBackup backups b) :
    ∀ d ∈ ((backups ++ [b]).insertionSort olderEq).take 1, d.time ≤ k.time := by
  intro d hd
  have hk1 : k ∈ ((backups ++ [b]).insertionSort olderEq).drop 1 := by
    unfold dmCreateBackup at hk
    rwa [if_pos hgt] at hk
  have hs : List.Sorted olderEq ((backups ++ [b]).insertionSort olderEq) :=
    List.sorted_insertionSort _ _
  rw [← List.take_append_drop 1 ((backups ++ [b]).insertionSort olderEq)] at hs
  exact (List.pairwise_append.mp hs).2.2 d hd k hk1

/-- C8 counterexample: TweetGenerator pruning is not oldest-first.  With
five existing backups whose directory listing begins with the file of
time 5 followed by the files of times 1 to 4, creating the backup of time
6 keeps the first five listed files and unlinks the just-created newest
backup (time 6) while retaining the oldest (time 1): a deleted backup is
strictly newer than a retained one, refuting that pruning deletes the
oldest backups first. -/
theorem C8_counterexample :
    cleanupDeleted 5 (([⟨5⟩, ⟨1⟩, ⟨2⟩, ⟨3⟩, ⟨4⟩] : List BackupFile) ++ [⟨6⟩])
      = [⟨6⟩] ∧
    (⟨6⟩ : BackupFile) ∉ tgCreateBackup 5 [⟨5⟩, ⟨1⟩, ⟨2⟩, ⟨3⟩, ⟨4⟩] ⟨6⟩ ∧
    (⟨1⟩ : BackupFile) ∈ tgCreateBackup 5 [⟨5⟩, ⟨1⟩, ⟨2⟩, ⟨3⟩, ⟨4⟩] ⟨6⟩ ∧
    (⟨1⟩ : BackupFile).time < (⟨6⟩ : BackupFile).time := by
  refine ⟨rfl, by decide, by decide, by decide⟩

/-- C8 amended: after every save the number of retained backups never
exceeds the configured retention limit (5 in
TweetGenerator._cleanupOldBackups; 10 in DataManager._createBackup,
proved along every sequence of saves from an empty directory), and
DataManager prunes oldest-first: whenever it deletes, every retained
backup is at least as recent as the deleted one.  TweetGenerator's
pruning, however, is not ordered by age: its broken time parse makes the
sort a no-op, so it keeps the first five files of the directory listing
and deletes the positions beyond, whatever their ages (see the
counterexample). -/
theorem C8_backup_retention_amended :
    (∀ (listing : List BackupFile) (b : BackupFile),
      (tgCreateBackup 5 listing b).length ≤ 5) ∧
    (∀ saves : List BackupFile, (saves.foldl dmCreateBackup []).length ≤ 10) ∧
    (∀ (backups : List BackupFile) (b k : BackupFile),
      10 < ((backups ++ [b]).insertionSort olderEq).length →
      k ∈ dmCreateBackup backups b →
      ∀ d ∈ ((backups ++ [b]).insertionSort olderEq).take 1, d.time ≤ k.time) :=
  ⟨tgCreateBackup_length_le 5, dmFold_length_le, dmCreateBackup_deletes_oldest⟩

/-- C8 witness: six TweetGenerator backups prune to five retained files,
and eleven DataManager saves keep ten files with the oldest deleted. -/
theorem C8_witness :
    (tgCreateBackup 5 [⟨1⟩, ⟨2⟩, ⟨3⟩, ⟨4⟩, ⟨5⟩] ⟨6⟩).length ≤ 5 ∧
    (([⟨1⟩, ⟨2⟩, ⟨3⟩, ⟨4⟩, ⟨5⟩, ⟨6⟩, ⟨7⟩, ⟨8⟩, ⟨9⟩, ⟨10⟩, ⟨11⟩] :
        List BackupFile).foldl dmCreateBackup []).length ≤ 10 ∧
    (10 < ((([⟨1⟩, ⟨2⟩, ⟨3⟩, ⟨4⟩, ⟨5⟩, ⟨6⟩, ⟨7⟩, ⟨8⟩, ⟨9⟩, ⟨10⟩] : List BackupFile)
        ++ ([⟨11⟩] : List BackupFile)).insertionSort olderEq).length ∧
      (⟨11⟩ : BackupFile) ∈ dmCreateBackup [⟨1⟩, ⟨2⟩, ⟨3⟩, ⟨4⟩, ⟨5⟩, ⟨6⟩, ⟨7⟩, ⟨8⟩, ⟨9⟩, ⟨10⟩] ⟨11⟩ ∧
      (⟨1⟩ : BackupFile).time ≤ (⟨11⟩ : BackupFile).time) := by
  refine ⟨C8_backup_retention_amended.1 ([⟨1⟩, ⟨2⟩, ⟨3⟩, ⟨4⟩, ⟨5⟩] : List BackupFile) ⟨6⟩,
    C8_backup_retention_amended.2.1
      ([⟨1⟩, ⟨2⟩, ⟨3⟩, ⟨4⟩, ⟨5⟩, ⟨6⟩, ⟨7⟩, ⟨8⟩, ⟨9⟩, ⟨10⟩, ⟨11⟩] : List BackupFile),
    ⟨by decide, by decide,
      C8_backup_retention_amended.2.2
        ([⟨1⟩, ⟨2⟩, ⟨3⟩, ⟨4⟩, ⟨5⟩, ⟨6⟩, ⟨7⟩, ⟨8⟩, ⟨9⟩, ⟨10⟩] : List BackupFile) ⟨11⟩ ⟨11⟩
        (by decide) (by decide) ⟨1⟩ (by decide)⟩⟩

theorem checkDailyLimit_4800 (t : ℕ) : checkDailyLimit 4800 t = true := by
  simp only [checkDailyLimit, decide_eq_true_eq]
  exact Nat.mod_lt _ (by norm_num)

/-- TweetGenerator._getCurrentPhase (tweet_generator.js 958-968): ordered
bracket lookup on the age capped at endAge. -/
def getCurrentPhase (endAge age : ℚ) : String :=
  if min age endAge < 32 then "early_career"
  else if min age endAge < 42 then "growth_phase"
  else if min age endAge < 52 then "peak_phase"
  else if min age endAge < 62 then "mature_phase"
  else "wisdom_phase"

/-- The twelve locally simulated tweets AICompletion falls back to when
the API call fails (ai_completion.js 195-248): three scenes of four
tweets each.  The texts are abbreviated since no claim reads them; only
their number is observable. -/
def localSimTexts : List String :=
  ["工作场景1", "工作场景2", "工作场景3", "工作场景4",
   "生活场景1", "生活场景2", "生活场景3", "生活场景4",
   "社交场景1", "社交场景2", "社交场景3", "社交场景4"]

/-- TweetGenerator._saveTweets (tweet_generator.js 572-646).  The age is
recomputed from the sent-tweets counter; once it has reached endAge
nothing is written and no tweets are returned; otherwise the new tweets
are appended with the capped toFixed-rounded age, metadata and stats are
refreshed and the one-time life events are recorded through
_updatePersonalStatus before the single file write (the backup copy that
follows is covered by the backup model above).  Returns the new document,
the appended tweets and the file writes performed. -/
def saveTweets (startAge endAge : ℚ) (doc : StoryDoc) (sentTotal : ℕ)
    (texts : List String) : StoryDoc × List StoryTweet × List StoryDoc :=
  if endAge ≤ tgCalculateAge startAge endAge sentTotal then (doc, [], [])
  else
    let newTotal := sentTotal + texts.length
    let safeAge := min (tgCalculateAge startAge endAge newTotal) endAge
    let newTweets := texts.map (fun t => (⟨t, round2 safeAge⟩ : StoryTweet))
    let doc1 : StoryDoc :=
      { doc with
        tweets := doc.tweets ++ newTweets
        statsTotalTweets := newTotal
        metadataCurrentAge := some (round2 safeAge)
        metadataCurrentPhase := getCurrentPhase endAge safeAge
        lifePoints := checkAndRecordLifeEvents doc.lifePoints safeAge }
    (doc1, newTweets, [doc1])

/-- What one tick of XavierSimulation.runOnce reports. -/
inductive TickOutcome where
  | completedStop
  | waitNextDay
  | produced (newTweets : ℕ) (hasDigest : Bool)
  | failed (e : LoadErr)
deriving DecidableEq

/-- The observable effect of one tick: the reported outcome, the final
main-file state, the successive persisted versions written during the
tick, and how many external-generator calls were issued. -/
structure TickResult where
  outcome : TickOutcome
  doc : StoryDoc
  writes : List StoryDoc
  genRequests : ℕ
deriving DecidableEq

/-- XavierSimulation.runOnce (simulation.js 64-138) with its configured
constants: maxTweetsPerDay 4800, tweetsPerScene 4, scenesPerBatch 1,
digestInterval 4, and an AI client always constructed so that
useLocalSimulation is false.  The external generator outcomes are
parameters: none models an API failure, which AICompletion catches and
replaces by the local simulation for the tweet call, and
_generateAIDigest catches and replaces by the local digest template for
the digest call.  A summary load failure is rethrown. -/
def runOnce (startAge endAge : ℚ) (doc : StoryDoc) (sentTotal : ℕ)
    (tweetApi : Option (List String)) (digestApi : Option String) : TickResult :=
  match (getCurrentSummary endAge (.valid doc)).1 with
  | .error e => ⟨.failed e, doc, [], 0⟩
  | .ok s =>
    if s.isCompleted = true ∨ endAge ≤ s.currentAge then
      ⟨.completedStop, doc, [], 0⟩
    else if checkDailyLimit 4800 s.totalTweets = false then
      ⟨.waitNextDay, doc, [], 0⟩
    else if 4800 - s.totalTweets % 4800 < 4 * 1 then
      ⟨.waitNextDay, doc, [], 0⟩
    else
      let texts := tweetApi.getD localSimTexts
      let saved := saveTweets startAge endAge doc sentTotal texts
      let tot := s.totalTweets + saved.2.1.length
      let dg := checkAndGenerateDigest 4 false digestApi saved.1 s.currentAge tot
      ⟨.produced saved.2.1.length dg.1.isSome, dg.2, saved.2.2 ++ [dg.2], 2⟩

/-- C9 amended: when the persisted metadata age has reached endAge the
tick is terminal: runOnce reports the completed stop, issues no external
generator request, performs no write and leaves the state untouched (the
engine also clears isRunning, so no further tick is scheduled).  When
only the sent-tweets-derived age has reached endAge while the metadata
age lags behind it, the tick is not terminal - see the counterexample. -/
theorem C9_terminal_amended (startAge endAge a : ℚ) (doc : StoryDoc)
    (sentTotal : ℕ) (tweetApi : Option (List String)) (digestApi : Option String)
    (h1 : doc.metadataCurrentAge = some a) (h2 : endAge ≤ a) :
    runOnce startAge endAge doc sentTotal tweetApi digestApi
      = ⟨TickOutcome.completedStop, doc, [], 0⟩ := by
  have hsum : (getCurrentSummary endAge (.valid doc)).1
      = .ok { currentAge := endAge
              totalTweets := doc.tweets.length
              lastDigest := doc.digests.getLast?.map (fun d => d.content)
              isCompleted := true } := by
    simp [getCurrentSummary, h1, h2]
  unfold runOnce
  rw [hsum]
  simp

/-- A concrete state whose persisted metadata age lags the sent-tweets
counter: metadata says 70 while 2496 sent tweets derive age 72 = endAge. -/
def c9Doc : StoryDoc :=
  { metadataCurrentAge := some 70
    metadataCurrentPhase := "wisdom_phase"
    tweets := []
    digests := [⟨"seed", none, none⟩]
    lifePoints := []
    statsTotalTweets := 0
    digestCount := 1 }

/-- C9 counterexample: in a state whose derived age (from the sent-tweets
counter that _saveTweets treats as authoritative) has reached endAge but
whose persisted metadata age lags behind, the tick does not report the
terminal status: it still issues both external generation requests and
appends a digest, refuting that no tick after the derived age reaches
endAge appends digests or issues generation requests. -/
theorem C9_counterexample :
    (72 : ℚ) ≤ tgCalculateAge 22 72 2496 ∧
    (runOnce 22 72 c9Doc 2496 none none).outcome = TickOutcome.produced 0 true ∧
    (runOnce 22 72 c9Doc 2496 none none).genRequests = 2 ∧
    (runOnce 22 72 c9Doc 2496 none none).doc.digests.length
      = c9Doc.digests.length + 1 := by
  have htg : tgCalculateAge 22 72 2496 = 72 := by
    norm_num [tgCalculateAge, round2, min_def]
  refine ⟨le_of_eq htg.symm, ?_, ?_, ?_⟩ <;>
    norm_num [runOnce, getCurrentSummary, c9Doc, checkDailyLimit_4800, saveTweets,
      tgCalculateAge, checkAndGenerateDigest, saveDigest, aiDigest, localDigest,
      localSimTexts, round2, min_def]

/-- C9 witness: the amended terminal theorem applied at metadata age 72
with endAge 72. -/
theorem C9_witness :
    ({ c9Doc with metadataCurrentAge := some 72 } : StoryDoc).metadataCurrentAge
        = some 72 ∧
    (72 : ℚ) ≤ 72 ∧
    runOnce 22 72 { c9Doc with metadataCurrentAge := some 72 } 0 none none
      = ⟨TickOutcome.completedStop, { c9Doc with metadataCurrentAge := some 72 }, [], 0⟩ :=
  ⟨rfl, le_refl 72,
   C9_terminal_amended 22 72 72 { c9Doc with metadataCurrentAge := some 72 } 0
     none none rfl (le_refl 72)⟩

/-- A concrete healthy state for the atomicity counterexample: metadata
age 22, four stored posts, one stored digest, no sent tweets. -/
def c4Doc : StoryDoc :=
  { metadataCurrentAge := some 22
    metadataCurrentPhase := "early_career"
    tweets := [⟨"a", 22⟩, ⟨"b", 22⟩, ⟨"c", 22⟩, ⟨"d", 22⟩]
    digests := [⟨"seed", none, none⟩]
    lifePoints := []
    statsTotalTweets := 4
    digestCount := 1 }

/-- C4 counterexample: a tick in which the external generator fails at
both the post-generation and the digest call does not abort with the
state unchanged - the engine falls back to the twelve local-simulation
tweets and the local digest template, persists both, and reports a
successful production. -/
theorem C4_counterexample :
    (runOnce 22 72 c4Doc 0 none none).outcome = TickOutcome.produced 12 true ∧
    (runOnce 22 72 c4Doc 0 none none).doc.tweets.length
      = c4Doc.tweets.length + 12 ∧
    (runOnce 22 72 c4Doc 0 none none).doc.digests.length
      = c4Doc.digests.length + 1 := by
  refine ⟨?_, ?_, ?_⟩ <;>
    norm_num [runOnce, getCurrentSummary, c4Doc, checkDailyLimit_4800, saveTweets,
      tgCalculateAge, checkAndGenerateDigest, saveDigest, aiDigest, localDigest,
      localSimTexts, round2, min_def]

/-- C4 amended: an external-generator failure at the post-generation or
digest step does not abort the tick: runOnce completes, appending and
persisting the twelve locally simulated fallback tweets and one fallback
digest; moreover the post append and the digest append are separate file
writes, so an intermediate persisted state holds the tick's posts without
its digest - the two appends are not one transaction. -/
theorem C4_tick_not_atomic (startAge endAge a : ℚ) (doc : StoryDoc) (sentTotal : ℕ)
    (h1 : doc.metadataCurrentAge = some a)
    (h2a : ¬ endAge ≤ a)
    (h2 : ¬ endAge ≤ round2 a)
    (h3 : ¬ (4800 - doc.tweets.length % 4800 < 4 * 1))
    (h4 : ¬ endAge ≤ tgCalculateAge startAge endAge sentTotal) :
    (runOnce startAge endAge doc sentTotal none none).outcome
        = TickOutcome.produced 12 true ∧
    (runOnce startAge endAge doc sentTotal none none).doc.tweets.length
        = doc.tweets.length + 12 ∧
    (runOnce startAge endAge doc sentTotal none none).doc.digests.length
        = doc.digests.length + 1 ∧
    ∃ mid ∈ (runOnce startAge endAge doc sentTotal none none).writes,
      mid.tweets.length = doc.tweets.length + 12 ∧ mid.digests = doc.digests := by
  have hsum : (getCurrentSummary endAge (.valid doc)).1
      = .ok { currentAge := round2 a
              totalTweets := doc.tweets.length
              lastDigest := doc.digests.getLast?.map (fun d => d.content)
              isCompleted := false } := by
    simp [getCurrentSummary, h1, h2a]
  refine ⟨?_, ?_, ?_, ?_⟩
  · simp [runOnce, hsum, h2, checkDailyLimit_4800, h3, saveTweets, h4,
      checkAndGenerateDigest, localSimTexts]
  · simp [runOnce, hsum, h2, checkDailyLimit_4800, h3, saveTweets, h4,
      checkAndGenerateDigest, saveDigest, localSimTexts]
  · simp [runOnce, hsum, h2, checkDailyLimit_4800, h3, saveTweets, h4,
      checkAndGenerateDigest, saveDigest, localSimTexts]
  · refine ⟨(saveTweets startAge endAge doc sentTotal localSimTexts).1, ?_, ?_⟩
    · simp [runOnce, hsum, h2, checkDailyLimit_4800, h3, saveTweets, h4]
    · constructor
      · simp [saveTweets, h4, localSimTexts]
      · simp [saveTweets, h4]

/-- C4 witness: the non-atomicity theorem applied at the concrete healthy
state c4Doc with both generator calls failing. -/
theorem C4_witness :
    c4Doc.metadataCurrentAge = some 22 ∧
    (runOnce 22 72 c4Doc 0 none none).doc.digests.length
      = c4Doc.digests.length + 1 ∧
    ∃ mid ∈ (runOnce 22 72 c4Doc 0 none none).writes,
      mid.tweets.length = c4Doc.tweets.length + 12 ∧ mid.digests = c4Doc.digests := by
  have h := C4_tick_not_atomic 22 72 22 c4Doc 0 rfl (by norm_num)
    (by norm_num [round2]) (by norm_num [c4Doc]) (by norm_num [tgCalculateAge])
  exact ⟨rfl, h.2.2.1, h.2.2.2⟩

end XaviersSim
